import Mathlib

/-!
Verification of the ai-transaction-system repository (prompt-to-intent parser,
income ledger, operation stubs).

The Python sources are shallowly embedded:

* `scripts/ai_prompt_handler.py` : the regular expressions used by
  `parse_ai_prompt` are embedded as explicit pattern lists over a small
  matcher (`matchSeq` / `reSearch`) that reproduces Python's `re.search`
  semantics (leftmost match, greedy quantifiers with backtracking) for the
  constructs those patterns use: literals, `\s+`, `.*`, and the capturing
  classes `(\w+)` and `([\d.]+)`.  Character classes are modelled at ASCII
  scope, which covers the literal prompts and claims considered here.
* Python's `float(str)` builtin is embedded by `pyFloat`, following the
  documented grammar for float literals (optional sign, digit parts with
  single underscores between digits, optional fraction and exponent,
  `inf` / `infinity` / `nan`, surrounding whitespace stripped).  A failing
  conversion (`ValueError`) is `none`; a function whose Python body can
  raise is embedded with an `Option` result, `none` meaning the exception
  propagates.
* `scripts/passive_income_generator.py` and
  `scripts/transaction_handler.py` : the JSON ledger file is modelled as an
  explicit `Option IncomeLog` state (absent file = `none`), threaded through
  the stubs.  Clock readings (`datetime.now().isoformat()`), the
  process-seeded `hash` builtin and the decimal rendering `str(float)` are
  runtime inputs of the program and are passed as explicit parameters.
  Numbers are modelled over `ℚ`; IEEE-754 rounding of Python floats is not
  modelled (none of the claims below depends on rounding).
-/

/-- Python `\w` at ASCII scope: letters, digits and underscore. -/
def pyWord (c : Char) : Bool := c.isAlphanum || c = '_'

/-- The class `[\d.]` used by the amount captures: a digit or a dot. -/
def pyDigitDot (c : Char) : Bool := c.isDigit || c = '.'

/-- Python `\s` at ASCII scope: space, tab, newline, return, vtab, formfeed. -/
def pySpace (c : Char) : Bool :=
  c = ' ' || c = '\t' || c = '\n' || c = '\r' || c = '\x0b' || c = '\x0c'

/-- The regex constructs occurring in the patterns of `parse_ai_prompt`:
a literal string, `\s+`, `.*`, and a capturing group `(C+)` for a character
class `C` (`\w` or `[\d.]`). -/
inductive RE where
  | lit (l : List Char)
  | wsPlus
  | dotStar
  | grp (c : Char → Bool)

/-- Greedy `.*` (which never matches a newline): prefer consuming one more
character, fall back to running the continuation at the current position.
This is Python's backtracking order for a greedy `.*`. -/
def starLoop (cont : List Char → Option (List (List Char))) :
    List Char → Option (List (List Char))
  | [] => cont []
  | c :: t =>
    if c = '\n' then cont (c :: t)
    else
      match starLoop cont t with
      | some caps => some caps
      | none => cont (c :: t)

/-- Match a sequence of regex items at the start of `s`, returning the list
of captured groups of the leftmost-greedy match (the match need not span all
of `s`).  `\s+` and the capturing classes take their maximal run: in every
pattern of `parse_ai_prompt` a `+` item is followed by the end of the
pattern, a literal starting with a letter, or an item of a disjoint
character class, so Python's greedy backtracking can never succeed with a
shorter run, and maximal munch is equivalent.  `.*` backtracks fully via
`starLoop`. -/
def matchSeq : List RE → List Char → Option (List (List Char))
  | [], _ => some []
  | .lit l :: ps, s =>
    if l.isPrefixOf s then matchSeq ps (s.drop l.length) else none
  | .wsPlus :: ps, s =>
    if s.takeWhile pySpace = [] then none
    else matchSeq ps (s.drop (s.takeWhile pySpace).length)
  | .grp c :: ps, s =>
    if s.takeWhile c = [] then none
    else (matchSeq ps (s.drop (s.takeWhile c).length)).map
      (fun caps => s.takeWhile c :: caps)
  | .dotStar :: ps, s => starLoop (fun t => matchSeq ps t) s

/-- Python `re.search`: try every start position from the left; at the first
position admitting a match, return its captures. -/
def reSearch (p : List RE) : List Char → Option (List (List Char))
  | [] => matchSeq p []
  | c :: t =>
    match matchSeq p (c :: t) with
    | some caps => some caps
    | none => reSearch p t

/-- Python `str.lower` (ASCII scope), applied by `parse_ai_prompt` before
matching. -/
def low (s : String) : List Char := s.toList.map Char.toLower

/-- Result of Python's `float(str)`: a finite value, an infinity, or `nan`. -/
inductive PyVal where
  | num (q : ℚ)
  | inf
  | ninf
  | nan
deriving DecidableEq

/-- Numeric value of an ASCII digit. -/
def pyDigit (c : Char) : ℕ := c.toNat - 48

/-- Continue a digit run: digits, with single underscores allowed strictly
between two digits (Python numeric literal grammar).  Returns the
accumulated value, the number of digits consumed, and the rest. -/
def digitsTail (v n : ℕ) : List Char → ℕ × ℕ × List Char
  | [] => (v, n, [])
  | '_' :: c :: t =>
    if c.isDigit then digitsTail (10 * v + pyDigit c) (n + 1) t
    else (v, n, '_' :: c :: t)
  | c :: t =>
    if c.isDigit then digitsTail (10 * v + pyDigit c) (n + 1) t
    else (v, n, c :: t)

/-- A digit part of a Python float literal: at least one digit, with single
underscores between digits. -/
def digitPart : List Char → Option (ℕ × ℕ × List Char)
  | c :: t => if c.isDigit then some (digitsTail (pyDigit c) 1 t) else none
  | [] => none

/-- Assemble the value of a parsed float literal,
`(-1) ^ neg * (iv + fv / 10 ^ fc) * 10 ^ (± ev)` (divided by `10 ^ ev` when
the exponent sign `esgn` is negative), built with `mkRat` so that it is a
plain rational-number computation. -/
def mkNum (neg : Bool) (iv fv fc : ℕ) (esgn : Bool) (ev : ℕ) : PyVal :=
  let n : ℤ := (if neg then -1 else 1) *
    ((iv * 10 ^ fc + fv : ℕ) : ℤ) * ((if esgn then 1 else 10 ^ ev : ℕ) : ℤ)
  let d : ℕ := 10 ^ fc * (if esgn then 10 ^ ev else 1)
  PyVal.num (mkRat n d)

/-- Optional exponent suffix of a float literal (after the mantissa). -/
def pyFloatExp (neg : Bool) (iv fv fc : ℕ) : List Char → Option PyVal
  | [] => some (mkNum neg iv fv fc false 0)
  | e :: r =>
    if e = 'e' || e = 'E' then
      match r with
      | '+' :: r' =>
        match digitPart r' with
        | some (ev, _, []) => some (mkNum neg iv fv fc false ev)
        | _ => none
      | '-' :: r' =>
        match digitPart r' with
        | some (ev, _, []) => some (mkNum neg iv fv fc true ev)
        | _ => none
      | _ =>
        match digitPart r with
        | some (ev, _, []) => some (mkNum neg iv fv fc false ev)
        | _ => none
    else none

/-- Mantissa (and then exponent) of a float literal, after the sign. -/
def pyFloatBody (neg : Bool) (s : List Char) : Option PyVal :=
  let ls := s.map Char.toLower
  if ls = ("inf".toList) || ls = ("infinity".toList) then
    some (if neg then PyVal.ninf else PyVal.inf)
  else if ls = ("nan".toList) then some PyVal.nan
  else
    match s with
    | '.' :: r =>
      match digitPart r with
      | some (fv, fc, rest) => pyFloatExp neg 0 fv fc rest
      | none => none
    | _ =>
      match digitPart s with
      | some (iv, _, rest) =>
        match rest with
        | '.' :: r =>
          match digitPart r with
          | some (fv, fc, rest2) => pyFloatExp neg iv fv fc rest2
          | none => pyFloatExp neg iv 0 0 r
        | _ => pyFloatExp neg iv 0 0 rest
      | none => none

/-- Strip surrounding whitespace, as Python `float(str)` does. -/
def pyStripWs (l : List Char) : List Char :=
  ((l.dropWhile pySpace).reverse.dropWhile pySpace).reverse

/-- Python's `float(str)` builtin: `some` the parsed value, `none` when the
conversion raises `ValueError`. -/
def pyFloat (s0 : List Char) : Option PyVal :=
  match pyStripWs s0 with
  | '+' :: t => pyFloatBody false t
  | '-' :: t => pyFloatBody true t
  | t => pyFloatBody false t

example : pyFloat ("0.5".toList) = some (PyVal.num (mkRat 1 2)) := by decide
example : pyFloat ("10".toList) = some (PyVal.num (mkRat 10 1)) := by decide
example : pyFloat (".".toList) = none := by decide
example : pyFloat ("bob".toList) = none := by decide
example : pyFloat ("ten".toList) = none := by decide
example : pyFloat ("1e2".toList) = some (PyVal.num (mkRat 100 1)) := by decide
example : pyFloat ("1_0".toList) = some (PyVal.num (mkRat 10 1)) := by decide
example : pyFloat ("1..2".toList) = none := by decide
example : pyFloat ("inf".toList) = some PyVal.inf := by decide
example : pyFloat ("1.e2".toList) = some (PyVal.num (mkRat 100 1)) := by decide
example : pyFloat ("5.5.5".toList) = none := by decide

/-- Parsed intent, the result dictionaries of `parse_ai_prompt`
(`{"operation": ..., "parameters": ...}`); the `unknown` variant carries the
`original_prompt` field. -/
inductive Intent where
  | transfer (from_wallet to_wallet : String) (amount : PyVal)
  | query_balance (wallet_address : String)
  | stake (amount : PyVal) (wallet : Option String)
  | income_report
  | unknown (original_prompt : String)
deriving DecidableEq

/-- The three `transfer_patterns` of `parse_ai_prompt`:
`transfer\s+([\d.]+)\s+sol\s+from\s+(\w+)\s+to\s+(\w+)`,
`send\s+([\d.]+)\s+sol\s+from\s+(\w+)\s+to\s+(\w+)`,
`pay\s+(\w+)\s+([\d.]+)\s+sol\s+from\s+(\w+)`. -/
def transfer_patterns : List (List RE) :=
  [[.lit ("transfer".toList), .wsPlus, .grp pyDigitDot, .wsPlus,
      .lit ("sol".toList), .wsPlus, .lit ("from".toList), .wsPlus,
      .grp pyWord, .wsPlus, .lit ("to".toList), .wsPlus, .grp pyWord],
    [.lit ("send".toList), .wsPlus, .grp pyDigitDot, .wsPlus,
      .lit ("sol".toList), .wsPlus, .lit ("from".toList), .wsPlus,
      .grp pyWord, .wsPlus, .lit ("to".toList), .wsPlus, .grp pyWord],
    [.lit ("pay".toList), .wsPlus, .grp pyWord, .wsPlus, .grp pyDigitDot,
      .wsPlus, .lit ("sol".toList), .wsPlus, .lit ("from".toList), .wsPlus,
      .grp pyWord]]

/-- The four `balance_patterns` of `parse_ai_prompt`:
`balance\s+of\s+(\w+)`, `what.*balance.*(\w+)`, `check\s+balance\s+(\w+)`,
`how\s+much.*(\w+)`. -/
def balance_patterns : List (List RE) :=
  [[.lit ("balance".toList), .wsPlus, .lit ("of".toList), .wsPlus,
      .grp pyWord],
    [.lit ("what".toList), .dotStar, .lit ("balance".toList), .dotStar,
      .grp pyWord],
    [.lit ("check".toList), .wsPlus, .lit ("balance".toList), .wsPlus,
      .grp pyWord],
    [.lit ("how".toList), .wsPlus, .lit ("much".toList), .dotStar,
      .grp pyWord]]

/-- The four `staking_patterns` of `parse_ai_prompt`:
`stake\s+([\d.]+)\s+sol\s+from\s+(\w+)`, `stake\s+([\d.]+)\s+sol`,
`create.*passive.*income.*with\s+([\d.]+)\s+sol`,
`start\s+staking\s+([\d.]+)\s+sol`. -/
def staking_patterns : List (List RE) :=
  [[.lit ("stake".toList), .wsPlus, .grp pyDigitDot, .wsPlus,
      .lit ("sol".toList), .wsPlus, .lit ("from".toList), .wsPlus,
      .grp pyWord],
    [.lit ("stake".toList), .wsPlus, .grp pyDigitDot, .wsPlus,
      .lit ("sol".toList)],
    [.lit ("create".toList), .dotStar, .lit ("passive".toList), .dotStar,
      .lit ("income".toList), .dotStar, .lit ("with".toList), .wsPlus,
      .grp pyDigitDot, .wsPlus, .lit ("sol".toList)],
    [.lit ("start".toList), .wsPlus, .lit ("staking".toList), .wsPlus,
      .grp pyDigitDot, .wsPlus, .lit ("sol".toList)]]

/-- The transfer loop of `parse_ai_prompt`: try each pattern in order; on a
match with exactly three groups, unpack them as
`amount, from_wallet, to_wallet = groups` (uniformly, for the pay pattern
too) and return the transfer intent, where `float(amount)` may raise; on a
match of any other arity, continue with the next pattern.  The outer
`Option` is `some r` when the loop returns (or raises, `r = none`) and
`none` when no pattern produced a return. -/
def transferLoop : List (List RE) → List Char → Option (Option Intent)
  | [], _ => none
  | p :: ps, l =>
    match reSearch p l with
    | some caps =>
      match caps with
      | [amount, from_wallet, to_wallet] =>
        some ((pyFloat amount).map (fun q =>
          Intent.transfer (String.mk from_wallet) (String.mk to_wallet) q))
      | _ => transferLoop ps l
    | none => transferLoop ps l

/-- The balance loop of `parse_ai_prompt`: first matching pattern wins and
its first group `match.group(1)` is the wallet.  A zero-group match would
make `match.group(1)` raise; it is unreachable for `balance_patterns`
(every pattern has exactly one group) and modelled as `some none`. -/
def balanceLoop : List (List RE) → List Char → Option (Option Intent)
  | [], _ => none
  | p :: ps, l =>
    match reSearch p l with
    | some (wallet :: _) =>
      some (some (Intent.query_balance (String.mk wallet)))
    | some [] => some none
    | none => balanceLoop ps l

/-- The staking loop of `parse_ai_prompt`: on a match with at least one
group, `amount = groups[0]` (through `float`, which may raise) and
`wallet = groups[1] if len(groups) > 1 else None`; a zero-group match falls
through to the next pattern. -/
def stakeLoop : List (List RE) → List Char → Option (Option Intent)
  | [], _ => none
  | p :: ps, l =>
    match reSearch p l with
    | some (amount :: rest) =>
      some ((pyFloat amount).map (fun q =>
        Intent.stake q (rest.head?.map String.mk)))
    | some [] => stakeLoop ps l
    | none => stakeLoop ps l

/-- Python's substring containment `w in l`: `w` occurs contiguously in
`l`. -/
def strIn (w : List Char) : List Char → Bool
  | [] => w.isPrefixOf []
  | c :: t => w.isPrefixOf (c :: t) || strIn w t

/-- The income-report keyword test of `parse_ai_prompt`: at least one of
`report/income/earnings/revenue` and at least one of
`passive/total/generated` occur in the lowercased prompt; occurrence is
Python's substring containment `word in prompt_text_lower`. -/
def incomeKeywords (l : List Char) : Bool :=
  (["report", "income", "earnings", "revenue"].any
      (fun w => strIn w.toList l)) &&
    (["passive", "total", "generated"].any
      (fun w => strIn w.toList l))

/-- Embedding of `parse_ai_prompt` (scripts/ai_prompt_handler.py, lines
26-117).  The prompt is lowercased, then the category loops run in the
fixed order transfer, balance, staking, income-report; with no match the
`unknown` intent carries the original (un-lowercased) prompt.  The result
is `none` when the Python function raises (a `float` conversion error). -/
def parse_ai_prompt (prompt_text : String) : Option Intent :=
  match transferLoop transfer_patterns (low prompt_text) with
  | some r => r
  | none =>
    match balanceLoop balance_patterns (low prompt_text) with
    | some r => r
    | none =>
      match stakeLoop staking_patterns (low prompt_text) with
      | some r => r
      | none =>
        if incomeKeywords (low prompt_text) then some Intent.income_report
        else some (Intent.unknown prompt_text)

example : parse_ai_prompt ("Transfer 0.5 SOL from ABC to XYZ") =
    some (Intent.transfer ("abc") ("xyz") (PyVal.num (mkRat 1 2))) := by
  decide
example : parse_ai_prompt ("send 10 sol from alice to bob") =
    some (Intent.transfer ("alice") ("bob") (PyVal.num (mkRat 10 1))) := by
  decide
example : parse_ai_prompt ("pay bob 5 sol from alice") = none := by decide
example : parse_ai_prompt ("What is the balance of XYZ?") =
    some (Intent.query_balance ("xyz")) := by decide
example : parse_ai_prompt ("what balance has abc") =
    some (Intent.query_balance ("c")) := by decide
example : parse_ai_prompt ("Stake 10 SOL to generate passive income") =
    some (Intent.stake (PyVal.num (mkRat 10 1)) none) := by decide
example : parse_ai_prompt ("stake 2 sol from abc") =
    some (Intent.stake (PyVal.num (mkRat 2 1)) (some ("abc"))) := by decide
example : parse_ai_prompt ("stake . sol") = none := by decide
example : parse_ai_prompt ("Show passive income report") =
    some Intent.income_report := by decide
example : parse_ai_prompt ("") = some (Intent.unknown ("")) := by decide
example : parse_ai_prompt ("hello there") =
    some (Intent.unknown ("hello there")) := by decide
example : parse_ai_prompt ("transfer . sol from a to b balance of c") =
    none := by decide

/-- A transaction record dictionary, as passed to and stored by
`log_income_transaction`.  Every field is optional, modelling Python dict
keys that may be absent (`.get` with a default is used on `type` and
`amount`). -/
structure TxnData where
  type_ : Option String
  amount : Option ℚ
  wallet : Option String
  dev_vault : Option String
  status : Option String
  timestamp : Option String
deriving DecidableEq

/-- The income log document `{"transactions": [...], "total_income": n}`
persisted in `data/passive_income_log.json`. -/
structure IncomeLog where
  transactions : List TxnData
  total_income : ℚ
deriving DecidableEq

/-- Embedding of `log_income_transaction` (passive_income_generator.py,
lines 20-40).  The backing file is `st : Option IncomeLog` (`none` when
absent, in which case `{"transactions": [], "total_income": 0}` is used);
`ts` is the `datetime.now().isoformat()` reading, stamped into the record;
the record is appended, `total_income` grows by
`transaction_data.get('amount', 0)` and the updated log, which overwrites
the file, is returned. -/
def log_income_transaction (ts : String) (d : TxnData)
    (st : Option IncomeLog) : IncomeLog :=
  let log := st.getD ⟨[], 0⟩
  let d' : TxnData := ⟨d.type_, d.amount, d.wallet, d.dev_vault, d.status,
    some ts⟩
  ⟨log.transactions ++ [d'], log.total_income + d.amount.getD 0⟩

/-- Run a sequence of `log_income_transaction` calls (each a timestamp and
a record) against the ledger file, the file state after each call being
`some` of the returned log. -/
def runLedger (st : Option IncomeLog) :
    List (String × TxnData) → Option IncomeLog
  | [] => st
  | (ts, d) :: rest =>
    runLedger (some (log_income_transaction ts d st)) rest

/-- The per-strategy counts of `get_income_report`. -/
structure Strategies where
  staking : ℕ
  token_fees : ℕ
  other : ℕ
deriving DecidableEq

/-- The report dictionary of `get_income_report`.  The two branches of the
source return dictionaries with different keys: with no backing file the
report has a `transactions` key (an empty list) and no `recent_transactions`
or `strategies` key; with a backing file it has `recent_transactions` and
`strategies` keys and no `transactions` key.  Absent keys are `none`. -/
structure IncomeReport where
  total_income : ℚ
  transaction_count : ℕ
  transactions : Option (List TxnData)
  recent_transactions : Option (List TxnData)
  strategies : Option Strategies
deriving DecidableEq

/-- Embedding of `get_income_report` (passive_income_generator.py, lines
135-156): with no backing file, zero totals and an empty `transactions`
list; otherwise totals from the log, the last ten records
(`transactions[-10:]`) and counts of records by `type`. -/
def get_income_report : Option IncomeLog → IncomeReport
  | none => ⟨0, 0, some [], none, none⟩
  | some log =>
    ⟨log.total_income, log.transactions.length, none,
      some (log.transactions.drop (log.transactions.length - 10)),
      some ⟨log.transactions.countP (fun t => t.type_ == some ("staking")),
        log.transactions.countP (fun t => t.type_ == some ("token_fees")),
        log.transactions.countP (fun t =>
          !(t.type_ == some ("staking")) &&
            !(t.type_ == some ("token_fees")))⟩⟩

/-- The system configuration consumed by the stubs: `devVaultWallet` and
`feeStructure.passiveIncomePercentage` from `config/system-config.json`. -/
structure SystemConfig where
  devVaultWallet : String
  passiveIncomePercentage : ℚ

/-- The result dictionary of `transfer_sol` (presentation-only fields such
as the `instructions` text block are omitted). -/
structure TransferResult where
  status : String
  operation : String
  from_wallet : String
  to_wallet : String
  amount : ℚ
  dev_vault : String
  dev_vault_amount : ℚ
  network : String
  signature : String

/-- Embedding of `transfer_sol` (transaction_handler.py, lines 20-59).
`h` is the process-seeded `hash` builtin on strings and `fstr` the decimal
rendering `str` on floats, both runtime inputs; the ledger file state is
threaded to express that the body performs no ledger operation.  The
`dev_vault_amount` field is
`amount * (config['feeStructure']['passiveIncomePercentage'] / 100)` and the
fabricated signature is
`"SIMULATED_SIGNATURE_" + str(hash(from_wallet + to_wallet + str(amount)))`. -/
def transfer_sol (h : String → ℤ) (fstr : ℚ → String) (cfg : SystemConfig)
    (from_wallet to_wallet : String) (amount : ℚ)
    (private_key network : String) (st : Option IncomeLog) :
    TransferResult × Option IncomeLog :=
  (⟨"success", "transfer_sol", from_wallet, to_wallet, amount,
    cfg.devVaultWallet, amount * (cfg.passiveIncomePercentage / 100),
    network,
    "SIMULATED_SIGNATURE_" ++
      toString (h (from_wallet ++ to_wallet ++ fstr amount))⟩, st)

/-- The result dictionary of `query_balance` (instructions text omitted). -/
structure BalanceResult where
  status : String
  operation : String
  wallet : String
  network : String
  note : String

/-- Embedding of `query_balance` (transaction_handler.py, lines 61-87): a
canned result with no balance value and no ledger operation. -/
def query_balance (cfg : SystemConfig) (wallet_address network : String)
    (st : Option IncomeLog) : BalanceResult × Option IncomeLog :=
  (⟨"success", "query_balance", wallet_address, network,
    "Use Solana CLI: solana balance <wallet_address> --url <network_url>"⟩,
    st)

/-- The result dictionary of `stake_for_rewards` (instructions and CLI text
omitted). -/
structure StakeResult where
  status : String
  operation : String
  strategy : String
  wallet : String
  amount : ℚ
  validator : String
  dev_vault : String
  network : String
  expected_apy : String
  signature : String

/-- Embedding of `stake_for_rewards` (passive_income_generator.py, lines
42-94): builds the canned staking result and, as a side effect, logs a
`{"type": "staking", "amount": ..., "wallet": ..., "dev_vault": ...,
"status": "initiated"}` record through `log_income_transaction` (`ts` is
the clock reading used for the stamp). -/
def stake_for_rewards (h : String → ℤ) (fstr : ℚ → String)
    (cfg : SystemConfig) (wallet : String) (amount : ℚ)
    (validator private_key network ts : String) (st : Option IncomeLog) :
    StakeResult × Option IncomeLog :=
  (⟨"success", "stake_for_rewards", "staking", wallet, amount, validator,
    cfg.devVaultWallet, network, "5-10%",
    "SIMULATED_STAKE_" ++ toString (h (wallet ++ fstr amount))⟩,
    some (log_income_transaction ts
      ⟨some ("staking"), some amount, some wallet, some cfg.devVaultWallet,
        some ("initiated"), none⟩ st))

/-- The result dictionary of `create_token_account_for_fees` (instructions
and CLI text omitted). -/
structure TokenAccountResult where
  status : String
  operation : String
  strategy : String
  wallet : String
  token_mint : String
  dev_vault : String
  network : String
  signature : String

/-- Embedding of `create_token_account_for_fees`
(passive_income_generator.py, lines 96-133): a canned result and no ledger
operation. -/
def create_token_account_for_fees (h : String → ℤ) (cfg : SystemConfig)
    (wallet token_mint private_key network : String)
    (st : Option IncomeLog) : TokenAccountResult × Option IncomeLog :=
  (⟨"success", "create_token_account", "token_fees", wallet, token_mint,
    cfg.devVaultWallet, network,
    "SIMULATED_TOKEN_ACCOUNT_" ++ toString (h (wallet ++ token_mint))⟩,
    st)

/-- Accumulating helper for `wordTokens`; the first argument is the
reversed current run of word characters, when inside one. -/
def wordTokensAux : Option (List Char) → List Char → List (List Char)
  | none, [] => []
  | some r, [] => [r.reverse]
  | none, c :: t =>
    if pyWord c then wordTokensAux (some [c]) t else wordTokensAux none t
  | some r, c :: t =>
    if pyWord c then wordTokensAux (some (c :: r)) t
    else r.reverse :: wordTokensAux none t

/-- The maximal runs of word characters of a string (its tokens), used to
state what "a wallet identifier token" means in the specification's claim
about the balance patterns. -/
def wordTokens (l : List Char) : List (List Char) := wordTokensAux none l

/-- The classes of the capturing groups of a pattern, in order. -/
def grpClasses : List RE → List (Char → Bool)
  | [] => []
  | .grp c :: ps => c :: grpClasses ps
  | .lit _ :: ps => grpClasses ps
  | .wsPlus :: ps => grpClasses ps
  | .dotStar :: ps => grpClasses ps

example : wordTokens ("what balance has abc".toList) =
    [("what".toList), ("balance".toList), ("has".toList), ("abc".toList)] := by
  decide

theorem takeWhile_all (p : Char → Bool) (l : List Char) :
    (l.takeWhile p).all p = true := by
  induction l with
  | nil => rfl
  | cons c t ih =>
    by_cases hc : p c = true
    · simpa [List.takeWhile, hc] using ih
    · simp [List.takeWhile, hc]

theorem starLoop_sound (cont : List Char → Option (List (List Char))) :
    ∀ (s : List Char) (caps : List (List Char)),
      starLoop cont s = some caps → ∃ t, cont t = some caps := by
  intro s
  induction s with
  | nil => intro caps h; exact ⟨[], by simpa [starLoop] using h⟩
  | cons c t ih =>
    intro caps h
    simp only [starLoop] at h
    split at h
    · exact ⟨c :: t, h⟩
    · cases hs : starLoop cont t with
      | some caps' => rw [hs] at h; cases h; exact ih _ hs
      | none => rw [hs] at h; exact ⟨c :: t, h⟩

/-- Soundness of the capture list: a successful match yields one capture
per group, each capture nonempty and drawn from the group's class. -/
theorem matchSeq_caps :
    ∀ (ps : List RE) (s : List Char) (caps : List (List Char)),
      matchSeq ps s = some caps →
      List.Forall₂ (fun c w => w ≠ [] ∧ w.all c = true)
        (grpClasses ps) caps := by
  intro ps
  induction ps with
  | nil =>
    intro s caps h
    simp only [matchSeq, Option.some.injEq] at h
    subst h
    simp [grpClasses]
  | cons p ps ih =>
    intro s caps h
    cases p with
    | lit l =>
      simp only [matchSeq] at h
      split at h
      · simpa [grpClasses] using ih _ _ h
      · cases h
    | wsPlus =>
      simp only [matchSeq] at h
      split at h
      · cases h
      · simpa [grpClasses] using ih _ _ h
    | grp c =>
      simp only [matchSeq] at h
      split at h
      · cases h
      · rename_i hne
        cases hm : matchSeq ps (s.drop (s.takeWhile c).length) with
        | some caps' =>
          rw [hm] at h
          cases h
          exact List.Forall₂.cons ⟨hne, takeWhile_all c s⟩ (ih _ _ hm)
        | none => rw [hm] at h; cases h
    | dotStar =>
      simp only [matchSeq] at h
      obtain ⟨t, ht⟩ := starLoop_sound _ _ _ h
      simpa [grpClasses] using ih _ _ ht

theorem reSearch_caps (p : List RE) :
    ∀ (s : List Char) (caps : List (List Char)),
      reSearch p s = some caps →
      List.Forall₂ (fun c w => w ≠ [] ∧ w.all c = true)
        (grpClasses p) caps := by
  intro s
  induction s with
  | nil =>
    intro caps h
    exact matchSeq_caps _ _ _ (by simpa [reSearch] using h)
  | cons c t ih =>
    intro caps h
    simp only [reSearch] at h
    cases hm : matchSeq p (c :: t) with
    | some caps' => rw [hm] at h; cases h; exact matchSeq_caps _ _ _ hm
    | none => rw [hm] at h; exact ih _ h

/-- Every balance pattern has exactly one capturing group, of class
`\w`. -/
theorem balance_patterns_classes :
    ∀ p ∈ balance_patterns, grpClasses p = [pyWord] := by
  intro p hp
  simp only [balance_patterns, List.mem_cons, List.not_mem_nil, or_false]
    at hp
  rcases hp with h | h | h | h <;> subst h <;> rfl

/-- A returning balance loop over patterns with a single `\w` group always
returns a `query_balance` intent whose wallet is a nonempty string of word
characters (in particular `match.group(1)` never raises). -/
theorem balanceLoop_sound :
    ∀ (pats : List (List RE)) (l : List Char) (r : Option Intent),
      (∀ p ∈ pats, grpClasses p = [pyWord]) →
      balanceLoop pats l = some r →
      ∃ w, r = some (Intent.query_balance (String.mk w)) ∧
        w ≠ [] ∧ w.all pyWord = true := by
  intro pats
  induction pats with
  | nil => intro l r _ h; cases h
  | cons p ps ih =>
    intro l r hcls h
    simp only [balanceLoop] at h
    cases hm : reSearch p l with
    | some caps =>
      rw [hm] at h
      have hf := reSearch_caps p l caps hm
      rw [hcls p (List.mem_cons_self p ps)] at hf
      cases hf with
      | cons hw hnil =>
        rename_i w caps'
        cases hnil
        cases h
        exact ⟨w, rfl, hw.1, hw.2⟩
    | none =>
      rw [hm] at h
      exact ih l r (fun q hq => hcls q (List.mem_cons_of_mem p hq)) h

/-- A transfer loop return is a transfer intent (or a raise). -/
theorem transferLoop_shape :
    ∀ (pats : List (List RE)) (l : List Char) (i : Intent),
      transferLoop pats l = some (some i) →
      ∃ f t q, i = Intent.transfer f t q := by
  intro pats
  induction pats with
  | nil => intro l i h; cases h
  | cons p ps ih =>
    intro l i h
    simp only [transferLoop] at h
    cases hm : reSearch p l with
    | some caps =>
      rw [hm] at h
      match caps, h with
      | [], h => exact ih l i h
      | [a], h => exact ih l i h
      | [a, b], h => exact ih l i h
      | [a, b, c], h =>
        have h' : some ((pyFloat a).map (fun q =>
            Intent.transfer (String.mk b) (String.mk c) q)) =
            some (some i) := h
        cases hf : pyFloat a with
        | some q => rw [hf] at h'; cases h'; exact ⟨_, _, _, rfl⟩
        | none => rw [hf] at h'; simp at h'
      | a :: b :: c :: d :: rest, h => exact ih l i h
    | none => rw [hm] at h; exact ih l i h

/-- A staking loop return is a stake intent (or a raise). -/
theorem stakeLoop_shape :
    ∀ (pats : List (List RE)) (l : List Char) (i : Intent),
      stakeLoop pats l = some (some i) → ∃ q w, i = Intent.stake q w := by
  intro pats
  induction pats with
  | nil => intro l i h; cases h
  | cons p ps ih =>
    intro l i h
    simp only [stakeLoop] at h
    cases hm : reSearch p l with
    | some caps =>
      rw [hm] at h
      match caps, h with
      | [], h => exact ih l i h
      | a :: rest, h =>
        have h' : some ((pyFloat a).map (fun q =>
            Intent.stake q (rest.head?.map String.mk))) = some (some i) := h
        cases hf : pyFloat a with
        | some q => rw [hf] at h'; cases h'; exact ⟨_, _, rfl⟩
        | none => rw [hf] at h'; simp at h'
    | none => rw [hm] at h; exact ih l i h

/-- Running the ledger from an existing log adds the amounts (with `0` for
a missing amount) to the running total and one stored record per call. -/
theorem runLedger_some (ds : List (String × TxnData)) :
    ∀ l0 : IncomeLog, ∃ log, runLedger (some l0) ds = some log ∧
      log.total_income = l0.total_income +
        (ds.map (fun p => p.2.amount.getD 0)).sum ∧
      log.transactions.length = l0.transactions.length + ds.length := by
  induction ds with
  | nil => intro l0; exact ⟨l0, rfl, by simp, by simp⟩
  | cons d rest ih =>
    intro l0
    obtain ⟨ts, dd⟩ := d
    obtain ⟨log, h1, h2, h3⟩ := ih (log_income_transaction ts dd (some l0))
    refine ⟨log, h1, ?_, ?_⟩
    · rw [h2]
      simp [log_income_transaction, add_assoc]
    · rw [h3]
      simp [log_income_transaction]
      omega

/-- C1: the transfer/send phrasings are extracted as (amount, from, to),
but the pay phrasing is NOT interpreted as (to, amount, from): the code
unpacks all three-group matches uniformly as
`amount, from_wallet, to_wallet = groups`, so for
"pay bob 5 sol from alice" the wallet capture "bob" reaches
`float(...)` and the call raises `ValueError` instead of returning the
intent `(amount = 5.0, from = alice, to = bob)` that the claim describes. -/
theorem C1_pay_inversion_bug :
    parse_ai_prompt ("transfer 0.5 sol from abc to xyz") =
        some (Intent.transfer ("abc") ("xyz") (PyVal.num (mkRat 1 2))) ∧
      parse_ai_prompt ("send 2 sol from alice to bob") =
        some (Intent.transfer ("alice") ("bob") (PyVal.num (mkRat 2 1))) ∧
      parse_ai_prompt ("pay bob 5 sol from alice") = none :=
  ⟨by decide, by decide, by decide⟩

/-- C2 counterexample: `parse_ai_prompt` does not return normally on every
input; on "stake . sol" the staking pattern matches with amount capture "."
(the class `[\d.]+` does not require a digit) and `float(".")` raises
`ValueError`. -/
theorem C2_counterexample : parse_ai_prompt ("stake . sol") = none := by
  decide

/-- C2 (amended): `parse_ai_prompt` raises exactly when a transfer pattern
matches and `float` of the first unpacked capture fails
(`transferLoop ... = some none`), or no transfer or balance pattern matches
but a staking pattern matches and `float` of its amount capture fails
(`stakeLoop ... = some none`); on every other input it returns normally.
In particular the balance, income-report and unknown branches never
raise. -/
theorem C2_raise_characterization (s : String) :
    parse_ai_prompt s = none ↔
      (transferLoop transfer_patterns (low s) = some none ∨
        (transferLoop transfer_patterns (low s) = none ∧
          balanceLoop balance_patterns (low s) = none ∧
          stakeLoop staking_patterns (low s) = some none)) := by
  unfold parse_ai_prompt
  cases ht : transferLoop transfer_patterns (low s) with
  | some r =>
    cases r with
    | some i => simp [ht]
    | none => simp [ht]
  | none =>
    cases hb : balanceLoop balance_patterns (low s) with
    | some r =>
      obtain ⟨w, hw, -, -⟩ :=
        balanceLoop_sound balance_patterns (low s) r
          balance_patterns_classes hb
      subst hw
      simp [ht, hb]
    | none =>
      cases hs : stakeLoop staking_patterns (low s) with
      | some r =>
        cases r with
        | some i => simp [ht, hb, hs]
        | none => simp [ht, hb, hs]
      | none =>
        by_cases hk : incomeKeywords (low s) = true <;>
          simp [ht, hb, hs, hk]

/-- C4 counterexample: "transfer . sol from a to b balance of c" matches
both a transfer pattern and a balance pattern, but the parser returns
neither category's intent: the transfer branch raises on `float(".")`. -/
theorem C4_counterexample :
    (transferLoop transfer_patterns
        (low ("transfer . sol from a to b balance of c"))).isSome = true ∧
      (balanceLoop balance_patterns
        (low ("transfer . sol from a to b balance of c"))).isSome = true ∧
      parse_ai_prompt ("transfer . sol from a to b balance of c") = none :=
  ⟨by decide, by decide, by decide⟩

/-- C4 (amended): the parser scans the categories in the fixed order
transfer, balance, stake, income-report, unknown, and the first category
whose loop returns decides the whole outcome (intent or raised exception)
regardless of lower-priority matches; when no loop returns, the keyword
test picks income-report, else unknown. -/
theorem C4_priority_dispatch :
    (∀ (s : String) (r : Option Intent),
        transferLoop transfer_patterns (low s) = some r →
        parse_ai_prompt s = r) ∧
      (∀ (s : String) (r : Option Intent),
        transferLoop transfer_patterns (low s) = none →
        balanceLoop balance_patterns (low s) = some r →
        parse_ai_prompt s = r) ∧
      (∀ (s : String) (r : Option Intent),
        transferLoop transfer_patterns (low s) = none →
        balanceLoop balance_patterns (low s) = none →
        stakeLoop staking_patterns (low s) = some r →
        parse_ai_prompt s = r) ∧
      (∀ s : String,
        transferLoop transfer_patterns (low s) = none →
        balanceLoop balance_patterns (low s) = none →
        stakeLoop staking_patterns (low s) = none →
        parse_ai_prompt s =
          (if incomeKeywords (low s) then some Intent.income_report
            else some (Intent.unknown s))) := by
  refine ⟨?_, ?_, ?_, ?_⟩
  · intro s r ht
    unfold parse_ai_prompt
    rw [ht]
  · intro s r ht hb
    unfold parse_ai_prompt
    rw [ht, hb]
  · intro s r ht hb hs
    unfold parse_ai_prompt
    rw [ht, hb, hs]
  · intro s ht hb hs
    unfold parse_ai_prompt
    rw [ht, hb, hs]

theorem C4_priority_dispatch_witness :
    parse_ai_prompt ("transfer 1 sol from a to b check balance x") =
      some (Intent.transfer ("a") ("b") (PyVal.num (mkRat 1 1))) :=
  C4_priority_dispatch.1 ("transfer 1 sol from a to b check balance x")
    (some (Intent.transfer ("a") ("b") (PyVal.num (mkRat 1 1))))
    (by decide)

/-- C5: among prompts on which no transfer, balance or staking pattern
fires, the income-report classification holds exactly when at least one of
report/income/earnings/revenue and at least one of passive/total/generated
occur in the lowercased prompt (occurrence being Python's substring
containment, at any position). -/
theorem C5_income_report_keywords (s : String)
    (h1 : transferLoop transfer_patterns (low s) = none)
    (h2 : balanceLoop balance_patterns (low s) = none)
    (h3 : stakeLoop staking_patterns (low s) = none) :
    parse_ai_prompt s = some Intent.income_report ↔
      ((["report", "income", "earnings", "revenue"].any
          (fun w => strIn w.toList (low s))) = true ∧
        (["passive", "total", "generated"].any
          (fun w => strIn w.toList (low s))) = true) := by
  have hps : parse_ai_prompt s =
      (if incomeKeywords (low s) then some Intent.income_report
        else some (Intent.unknown s)) := by
    unfold parse_ai_prompt
    rw [h1, h2, h3]
  rw [hps]
  constructor
  · intro h
    split at h
    · rename_i hk
      unfold incomeKeywords at hk
      exact Bool.and_eq_true _ _ |>.mp hk
    · simp at h
  · intro hab
    have hk : incomeKeywords (low s) = true := by
      unfold incomeKeywords
      exact Bool.and_eq_true _ _ |>.mpr hab
    rw [if_pos hk]

theorem C5_income_report_keywords_witness :
    parse_ai_prompt ("show passive income report") =
      some Intent.income_report :=
  (C5_income_report_keywords ("show passive income report")
    (by decide) (by decide) (by decide)).mpr ⟨by decide, by decide⟩

/-- C3: starting from an absent ledger file or an empty log, any nonempty
sequence of `log_income_transaction` calls leaves a stored log whose
`total_income` is the sum of the logged amounts (a missing amount counting
as 0) and which holds exactly one record per call; quantifying over all
sequences, the running-sum invariant holds after every successful write. -/
theorem C3_ledger_running_sum (st : Option IncomeLog)
    (hst : st = none ∨ st = some ⟨[], 0⟩)
    (ds : List (String × TxnData)) (hne : ds ≠ []) :
    ∃ log, runLedger st ds = some log ∧
      log.total_income = (ds.map (fun p => p.2.amount.getD 0)).sum ∧
      log.transactions.length = ds.length := by
  rcases hst with h | h <;> subst h
  · cases ds with
    | nil => exact absurd rfl hne
    | cons d rest =>
      obtain ⟨ts, dd⟩ := d
      obtain ⟨log, e1, e2, e3⟩ :=
        runLedger_some rest (log_income_transaction ts dd none)
      refine ⟨log, e1, ?_, ?_⟩
      · rw [e2]
        simp [log_income_transaction]
      · rw [e3]
        simp [log_income_transaction]
        omega
  · obtain ⟨log, e1, e2, e3⟩ := runLedger_some ds (⟨[], 0⟩ : IncomeLog)
    refine ⟨log, e1, ?_, ?_⟩
    · rw [e2]; simp
    · rw [e3]; simp

theorem C3_ledger_running_sum_witness :
    ∃ log, runLedger none
        [(("2024-01-01T00:00:00"),
            ⟨some ("staking"), some (mkRat 3 2), some ("w1"),
              some ("dv"), some ("initiated"), none⟩),
          (("2024-01-02T00:00:00"),
            ⟨none, none, none, none, none, none⟩)] = some log ∧
      log.total_income =
        (([(("2024-01-01T00:00:00"),
            (⟨some ("staking"), some (mkRat 3 2), some ("w1"),
              some ("dv"), some ("initiated"), none⟩ : TxnData)),
          (("2024-01-02T00:00:00"),
            ⟨none, none, none, none, none, none⟩)]).map
          (fun p => p.2.amount.getD 0)).sum ∧
      log.transactions.length = 2 :=
  C3_ledger_running_sum none (Or.inl rfl) _ (by simp)

/-- C6 counterexample: the wildcard balance pattern
`what.*balance.*(\w+)` captures only the final word character of the
prompt; on "what balance has abc" the extracted wallet is "c", which is
not a maximal run of word characters (a token) of the lowercased
prompt. -/
theorem C6_counterexample :
    parse_ai_prompt ("what balance has abc") =
        some (Intent.query_balance ("c")) ∧
      ("c".toList) ∉ wordTokens (low ("what balance has abc")) :=
  ⟨by decide, by decide⟩

/-- C6 (amended): every wallet extracted by the balance branch is a
nonempty string of word characters of the lowercased prompt, but not
necessarily a maximal run: the wildcard patterns (`what.*balance.*(\w+)`,
`how\s+much.*(\w+)`) may capture only the final character of a longer
token. -/
theorem C6_balance_capture (s w : String)
    (h : parse_ai_prompt s = some (Intent.query_balance w)) :
    w ≠ ("") ∧ w.toList.all pyWord = true := by
  unfold parse_ai_prompt at h
  cases ht : transferLoop transfer_patterns (low s) with
  | some r =>
    rw [ht] at h
    subst h
    obtain ⟨f, t, q, hq⟩ := transferLoop_shape _ _ _ ht
    simp at hq
  | none =>
    rw [ht] at h
    cases hb : balanceLoop balance_patterns (low s) with
    | some r =>
      rw [hb] at h
      have h' : r = some (Intent.query_balance w) := h
      obtain ⟨w', hw', hne, hall⟩ :=
        balanceLoop_sound balance_patterns (low s) r
          balance_patterns_classes hb
      rw [hw'] at h'
      have hww : String.mk w' = w := by
        simpa using h'
      subst hww
      refine ⟨?_, hall⟩
      intro hcontra
      exact hne (congrArg String.toList hcontra)
    | none =>
      rw [hb] at h
      cases hs : stakeLoop staking_patterns (low s) with
      | some r =>
        rw [hs] at h
        subst h
        obtain ⟨q, ww, hq⟩ := stakeLoop_shape _ _ _ hs
        simp at hq
      | none =>
        rw [hs] at h
        have h' : (if incomeKeywords (low s) = true then
            some Intent.income_report
          else some (Intent.unknown s)) =
            some (Intent.query_balance w) := h
        split at h' <;> simp at h'

theorem C6_balance_capture_witness :
    ("xyz" : String) ≠ ("") ∧
      ("xyz" : String).toList.all pyWord = true :=
  C6_balance_capture ("what is the balance of xyz?") ("xyz") (by decide)

/-- C7 counterexample: with no backing file, the report of
`get_income_report` carries no `recent_transactions` key at all (accessing
it would raise `KeyError`); it carries a `transactions` key holding an
empty list instead, so the claim's "recent_transactions has length
min(10, transaction_count)" fails at this ledger state even though
`transaction_count = 0`. -/
theorem C7_counterexample :
    (get_income_report none).recent_transactions = none ∧
      (get_income_report none).transaction_count = 0 ∧
      (get_income_report none).transactions = some [] :=
  ⟨rfl, rfl, rfl⟩

/-- C7 (amended): for every existing ledger log, the report's
`recent_transactions` is present, has length
`min 10 transaction_count`, and is a suffix of the stored transaction
sequence (the last at most ten records in their original append order);
when the backing file is absent the report instead carries an empty
`transactions` list and no `recent_transactions` key. -/
theorem C7_recent_transactions (log : IncomeLog) :
    ∃ l, (get_income_report (some log)).recent_transactions = some l ∧
      l.length = min 10 log.transactions.length ∧
      l <:+ log.transactions := by
  refine ⟨log.transactions.drop (log.transactions.length - 10), rfl, ?_,
    List.drop_suffix _ _⟩
  rw [List.length_drop]
  omega

/-- C8: the transfer, balance-query and token-account stubs leave the
ledger file untouched; the staking stub is the only one with a side
effect, and that effect appends exactly one
`{type: staking, amount, wallet, dev_vault, status: initiated}` record
(stamped with the clock reading) to the ledger. -/
theorem C8_stub_frame_effects (h : String → ℤ) (fstr : ℚ → String)
    (cfg : SystemConfig) (f t w tm va pk nw ts : String) (a : ℚ)
    (st : Option IncomeLog) :
    (transfer_sol h fstr cfg f t a pk nw st).2 = st ∧
      (query_balance cfg w nw st).2 = st ∧
      (create_token_account_for_fees h cfg w tm pk nw st).2 = st ∧
      ∃ l, (stake_for_rewards h fstr cfg w a va pk nw ts st).2 = some l ∧
        l.transactions = (st.getD ⟨[], 0⟩).transactions ++
          [⟨some ("staking"), some a, some w, some cfg.devVaultWallet,
            some ("initiated"), some ts⟩] :=
  ⟨rfl, rfl, rfl, ⟨_, rfl, rfl⟩⟩

/-- C9: the `dev_vault_amount` field of a transfer result equals
`amount * passiveIncomePercentage / 100` (the code computes
`amount * (percentage / 100)`, equal over the exact rationals). -/
theorem C9_dev_vault_amount (h : String → ℤ) (fstr : ℚ → String)
    (cfg : SystemConfig) (f t pk nw : String) (a : ℚ)
    (st : Option IncomeLog) :
    (transfer_sol h fstr cfg f t a pk nw st).1.dev_vault_amount =
      a * cfg.passiveIncomePercentage / 100 := by
  show a * (cfg.passiveIncomePercentage / 100) =
    a * cfg.passiveIncomePercentage / 100
  ring

/-- C10: the fabricated transfer signature depends only on the string
concatenation `from_wallet + to_wallet + str(amount)`; any two calls whose
concatenations coincide produce the identical signature within one process
(the same `hash`). -/
theorem C10_signature_concatenation (h : String → ℤ) (fstr : ℚ → String)
    (cfg : SystemConfig) (f1 t1 f2 t2 pk1 nw1 pk2 nw2 : String)
    (a1 a2 : ℚ) (st1 st2 : Option IncomeLog)
    (hcat : f1 ++ t1 ++ fstr a1 = f2 ++ t2 ++ fstr a2) :
    (transfer_sol h fstr cfg f1 t1 a1 pk1 nw1 st1).1.signature =
      (transfer_sol h fstr cfg f2 t2 a2 pk2 nw2 st2).1.signature := by
  show ("SIMULATED_SIGNATURE_") ++ toString (h (f1 ++ t1 ++ fstr a1)) =
    ("SIMULATED_SIGNATURE_") ++ toString (h (f2 ++ t2 ++ fstr a2))
  rw [hcat]

theorem C10_signature_concatenation_witness :
    (transfer_sol (fun s => (s.length : ℤ)) (fun _ => ("")) ⟨("dv"), 1⟩
        ("ab") ("c") 1 ("pk") ("devnet") none).1.signature =
      (transfer_sol (fun s => (s.length : ℤ)) (fun _ => ("")) ⟨("dv"), 1⟩
        ("a") ("bc") 1 ("pk") ("devnet") none).1.signature :=
  C10_signature_concatenation (fun s => (s.length : ℤ)) (fun _ => (""))
    ⟨("dv"), 1⟩ ("ab") ("c") ("a") ("bc") ("pk") ("devnet") ("pk")
    ("devnet") 1 1 none none (by decide)
